import Mathlib

/-!
Verification development for the synchronous-resource execution bridge of
the spy-credit-spread dashboard.  The subject code is the IBKRService class
shown in src/docs/event-loop-integration.md (lines 43-95): a dedicated
worker thread owns the ib_insync connection, callers submit work through a
FIFO queue.Queue of (func, args, kwargs, Future) tuples, and the worker
alternates between draining the queue and pumping the connection with
ib.sleep(0.01).

The embedding below is a shallow functional model of that code: the
worker thread is a step function on an explicit service state, a Python
Future is an entry of an association list from future ids to settlement
states, and exceptions are Except values.
-/

namespace Bridge

/-- Identifier of a Future object handed back by execute. -/
abbrev FutureId := Nat

/-- Settlement state of a concurrent.futures.Future: pending until
set_result or set_exception is called. -/
inductive FutureState where
  | pending
  | fulfilled (v : Nat)
  | rejected (e : String)
  deriving DecidableEq, Repr

instance {e a : Type} [DecidableEq e] [DecidableEq a] : DecidableEq (Except e a) := fun x y =>
  match x, y with
  | Except.ok u, Except.ok v => decidable_of_iff (u = v) (by simp)
  | Except.ok _, Except.error _ => Decidable.isFalse (by simp)
  | Except.error _, Except.ok _ => Decidable.isFalse (by simp)
  | Except.error u, Except.error v => decidable_of_iff (u = v) (by simp)

/-- One queued tuple (func, args, kwargs, future) of the task queue
(line 74).  The operation func(*args, **kwargs) either returns a value or
raises an exception, modelled as an Except outcome; fid names the Future
paired with it. -/
structure WorkItem where
  fid : FutureId
  op : Except String Nat
  deriving DecidableEq, Repr

/-- Caller-observable state of an IBKRService instance (lines 44-49)
plus the bookkeeping the claims are about.  taskQueue is self._task_queue
with the head the oldest element (queue.Queue is FIFO); connected is
self._connected; running is self._running; threadCount counts worker
threads spawned by threading.Thread(...).start(); venueUp is the
library's own connection state (ib.isConnected()), which the worker loop
never reads; pumpCount counts invocations of ib.sleep(0.01); futures is
the heap of Future objects reachable from queued or settled work. -/
structure ServiceState where
  taskQueue : List WorkItem
  futures : List (FutureId × FutureState)
  connected : Bool
  running : Bool
  threadCount : Nat
  venueUp : Bool
  pumpCount : Nat
  deriving DecidableEq, Repr

/-- Look a Future up in the heap. -/
def getFuture (fs : List (FutureId × FutureState)) (fid : FutureId) : Option FutureState :=
  match fs with
  | [] => none
  | p :: rest => if p.1 = fid then some p.2 else getFuture rest fid

/-- Settle the Future named fid (future.set_result / future.set_exception,
lines 77 and 79): every heap entry for fid is overwritten with st. -/
def setFuture (fid : FutureId) (st : FutureState) :
    List (FutureId × FutureState) → List (FutureId × FutureState)
  | [] => []
  | p :: rest =>
      if p.1 = fid then (p.1, st) :: setFuture fid st rest
      else p :: setFuture fid st rest

/-- Outcome the worker stores into an item's Future (lines 75-79): the
try around result = func(*args, **kwargs) turns a raised exception into
set_exception and a returned value into set_result. -/
def opOutcome (it : WorkItem) : FutureState :=
  match it.op with
  | Except.ok v => FutureState.fulfilled v
  | Except.error e => FutureState.rejected e

/-- Observable events of one worker-loop iteration: executing a queued
item, or invoking the ib.sleep pump with its duration in milliseconds. -/
inductive Event where
  | exec (fid : FutureId)
  | pump (durationMs : Nat)
  deriving DecidableEq, Repr

/-- Whether an event is the execution of a work item. -/
def Event.isExec : Event → Bool
  | Event.exec _ => true
  | Event.pump _ => false

/-- Duration argument of the pump call ib.sleep(0.01), in milliseconds
(line 83). -/
def pumpDurationMs : Nat := 10

/-- Timeout of self._task_queue.get(timeout=0.1) in milliseconds
(line 74). -/
def popTimeoutMs : Nat := 100

/-- Timeout, in seconds, of connect_done.wait(timeout=30) inside start
(line 87). -/
def startTimeoutSec : Nat := 30

/-- Deadline, in seconds, that execute passes to future.result (line 95). -/
def resultTimeoutSec : Nat := 30

/-- Result of running the worker loop body once (lines 72-83).  next:
the body finished and the while loop continues.  crashed: an exception
escaped the body, so the loop and the worker thread terminate abnormally.
exited: self._running was false, so the while condition ended the loop. -/
inductive IterResult where
  | next (s : ServiceState) (evs : List Event)
  | crashed (s : ServiceState) (exc : String) (evs : List Event)
  | exited (s : ServiceState)
  deriving DecidableEq, Repr

/-- State component of an iteration result. -/
def IterResult.state : IterResult → ServiceState
  | IterResult.next s _ => s
  | IterResult.crashed s _ _ => s
  | IterResult.exited s => s

/-- Events of an iteration result. -/
def IterResult.events : IterResult → List Event
  | IterResult.next _ evs => evs
  | IterResult.crashed _ _ evs => evs
  | IterResult.exited _ => []

/-- One iteration of the worker main loop (lines 72-83).  The while
condition checks self._running.  get(timeout=0.1) yields the oldest
queued item if any; the inner try executes it and settles its Future
with set_result or set_exception, catching any exception the operation
raises.  On queue.Empty, if self._connected the worker calls
ib.sleep(0.01); that call sits inside the except handler, so an
exception it raises is caught by nothing and terminates the loop.  The
parameter pumpRes is the behaviour of ib.sleep for this iteration. -/
def workerIter (s : ServiceState) (pumpRes : Except String Unit) : IterResult :=
  if s.running = false then IterResult.exited s
  else
    match s.taskQueue with
    | item :: rest =>
        IterResult.next
          { s with taskQueue := rest,
                   futures := setFuture item.fid (opOutcome item) s.futures }
          [Event.exec item.fid]
    | [] =>
        if s.connected then
          match pumpRes with
          | Except.ok _ =>
              IterResult.next { s with pumpCount := s.pumpCount + 1 }
                [Event.pump pumpDurationMs]
          | Except.error e =>
              IterResult.crashed { s with pumpCount := s.pumpCount + 1 } e
                [Event.pump pumpDurationMs]
        else IterResult.next s []

/-- Outcome of running the worker loop for a number of iterations:
final state, concatenated event trace, and the uncaught exception if the
loop crashed before using all its iterations. -/
structure RunResult where
  state : ServiceState
  trace : List Event
  uncaught : Option String
  deriving DecidableEq, Repr

/-- Run the worker loop for up to n iterations, ib.sleep behaving as
pump on every pump call. -/
def workerRun (pump : Except String Unit) : Nat → ServiceState → RunResult
  | 0, s => ⟨s, [], none⟩
  | n + 1, s =>
      match workerIter s pump with
      | IterResult.next s1 evs =>
          let r := workerRun pump n s1
          ⟨r.state, evs ++ r.trace, r.uncaught⟩
      | IterResult.crashed s1 e evs => ⟨s1, evs, some e⟩
      | IterResult.exited s1 => ⟨s1, [], none⟩

/-- Whole-system state as the façade sees it: the service plus the set of
callers currently blocked inside execute awaiting their Future (the
future.result calls in flight on executor threads). -/
structure SysState where
  service : ServiceState
  waiters : List FutureId
  deriving DecidableEq, Repr

/-- The execute coroutine (lines 89-95): create a fresh pending Future,
put (func, args, kwargs, future) on the task queue, then await
future.result with the fixed 30-second deadline on an executor thread.
Returns the new system state and the deadline, in seconds, that the await
will use; the interface offers no way to pass any other deadline. -/
def execute (sys : SysState) (it : WorkItem) : SysState × Nat :=
  ({ service :=
       { sys.service with
           taskQueue := sys.service.taskQueue ++ [it],
           futures := sys.service.futures ++ [(it.fid, FutureState.pending)] },
     waiters := sys.waiters ++ [it.fid] },
   resultTimeoutSec)

/-- Submit a whole list of operations through execute, in order. -/
def executeAll (sys : SysState) (items : List WorkItem) : SysState :=
  items.foldl (fun acc it => (execute acc it).1) sys

/-- What the blocked caller of execute observes when future.result
reaches its deadline. -/
inductive AwaitOutcome where
  | value (v : Nat)
  | raised (e : String)
  | timedOut
  deriving DecidableEq, Repr

/-- future.result(30) observed at the moment the deadline expires: a
still-pending Future makes it raise TimeoutError; a settled Future
returns the value or re-raises the stored exception. -/
def awaitFuture : FutureState → AwaitOutcome
  | FutureState.pending => AwaitOutcome.timedOut
  | FutureState.fulfilled v => AwaitOutcome.value v
  | FutureState.rejected e => AwaitOutcome.raised e

/-- Effect on the system of one caller timing out of its future.result
wait: the caller stops waiting and nothing else happens.  The Future is
not cancelled, the queued item is not removed, and the service state is
untouched. -/
def callerTimeout (sys : SysState) (fid : FutureId) : SysState :=
  { sys with waiters := sys.waiters.erase fid }

/-- Failure report a caller of start could in principle receive.  The
Python start method has no return statement, so its caller always
receives None; this type names the reports the spec expects so their
absence can be stated. -/
inductive StartError where
  | timeout
  | failed (reason : String)
  deriving DecidableEq, Repr

/-- What the caller of start gets back: the returned value (always none
in the code, since start returns None) and how many seconds the caller
was blocked inside connect_done.wait. -/
structure StartReturn where
  value : Option StartError
  callerBlockedSec : Nat
  deriving DecidableEq, Repr

/-- Behaviour of the environment during one start call: the outcome of
self.ib.connect on the worker thread, and the number of seconds after
thread start at which the connect attempt finishes (when connect_done.set
fires). -/
structure ConnectEnv where
  result : Except String Unit
  delaySec : Nat
  deriving DecidableEq, Repr

/-- Result of the connect phase run on the worker thread (lines 62-69).
The try/except/finally around self.ib.connect: on success the try body
runs self._connected = True (setsConnected); the except branch appends
the raised exception to the local connect_error list and writes nothing
to _connected; the finally calls connect_done.set() exactly once either
way, and no exception escapes the phase. -/
structure ConnectPhase where
  setsConnected : Bool
  capturedErrors : List String
  signalCount : Nat
  escapedException : Option String
  deriving DecidableEq, Repr

/-- Shallow embedding of lines 62-69. -/
def connectPhase (res : Except String Unit) : ConnectPhase :=
  match res with
  | Except.ok _ =>
      { setsConnected := true, capturedErrors := [],
        signalCount := 1, escapedException := none }
  | Except.error e =>
      { setsConnected := false, capturedErrors := [e],
        signalCount := 1, escapedException := none }

/-- Effect of the connect phase on self._connected: the try body sets it
to True on success; the except branch does not touch it, so the prior
value is preserved on a failed connect. -/
def ConnectPhase.applyConnected (cp : ConnectPhase) (prev : Bool) : Bool :=
  if cp.setsConnected then true else prev

/-- The start method (lines 51-87) as its caller observes it.  It sets
self._running = True, unconditionally constructs and starts a new worker
thread (threading.Thread(...).start(), with no check of self._thread),
then blocks in connect_done.wait(timeout=30).  If the connect phase
finishes within the timeout the caller sees its effect on _connected
(set to True on success, untouched on a raised exception); otherwise the
phase is still in flight and _connected is unchanged.  The Bool result
of wait is discarded and start returns None, so the returned value is
none in every case; the connect_error list is local to start and is
never read after the wait. -/
def start (s : ServiceState) (env : ConnectEnv) : ServiceState × StartReturn :=
  ( { s with
        running := true,
        threadCount := s.threadCount + 1,
        connected :=
          if env.delaySec ≤ startTimeoutSec then
            (connectPhase env.result).applyConnected s.connected
          else s.connected },
    { value := none, callerBlockedSec := min env.delaySec startTimeoutSec } )

/-- The connect phase completing on the worker thread after start has
already returned (the timeout case): its effect on _connected is applied
then. -/
def lateConnect (s : ServiceState) (env : ConnectEnv) : ServiceState :=
  { s with connected := (connectPhase env.result).applyConnected s.connected }

/-- Error tag the spec's taxonomy prescribes for work rejected because
the venue connection is down.  The worker loop in the code never
constructs it; it is named here so its absence can be stated. -/
def disconnectedError : String := "Disconnected"

/-- A freshly started service with the connect handshake done: empty
queue, no futures, connected, running, one worker thread, venue link up. -/
def freshService : ServiceState :=
  { taskQueue := [], futures := [], connected := true, running := true,
    threadCount := 1, venueUp := true, pumpCount := 0 }

/-- A service object as built by __init__ (lines 44-49): nothing started. -/
def initialService : ServiceState :=
  { taskQueue := [], futures := [], connected := false, running := false,
    threadCount := 0, venueUp := true, pumpCount := 0 }

/-- Fresh system state: fresh service, no blocked callers. -/
def freshSys : SysState := { service := freshService, waiters := [] }

theorem getFuture_setFuture_self (fid : FutureId) (st : FutureState) :
    ∀ fs : List (FutureId × FutureState), (getFuture fs fid).isSome = true →
      getFuture (setFuture fid st fs) fid = some st := by
  intro fs
  induction fs with
  | nil => intro h; simp [getFuture] at h
  | cons p rest ih =>
      intro h
      by_cases hp : p.1 = fid
      · simp [getFuture, setFuture, hp]
      · simp [getFuture, setFuture, hp] at h ⊢
        exact ih h

theorem getFuture_setFuture_other (fid fid2 : FutureId) (st : FutureState)
    (hne : fid ≠ fid2) :
    ∀ fs : List (FutureId × FutureState),
      getFuture (setFuture fid2 st fs) fid = getFuture fs fid := by
  intro fs
  induction fs with
  | nil => simp [getFuture, setFuture]
  | cons p rest ih =>
      by_cases hp : p.1 = fid2
      · have hq : ¬ p.1 = fid := by rw [hp]; exact Ne.symm hne
        simp [getFuture, setFuture, hp, hq, ih, Ne.symm hne]
      · by_cases hq : p.1 = fid
        · simp [getFuture, setFuture, hp, hq, hne]
        · simp [getFuture, setFuture, hp, hq, ih]

theorem workerRun_drain (pump : Except String Unit) :
    ∀ (q : List WorkItem) (s : ServiceState), s.running = true → s.taskQueue = q →
      (workerRun pump q.length s).trace = q.map (fun it => Event.exec it.fid)
      ∧ (workerRun pump q.length s).state.taskQueue = []
      ∧ (workerRun pump q.length s).uncaught = none
      ∧ (workerRun pump q.length s).state.running = true := by
  intro q
  induction q with
  | nil =>
      intro s hr hq
      simp [workerRun, hq, hr]
  | cons it rest ih =>
      intro s hr hq
      have hiter : workerIter s pump = IterResult.next
          { s with taskQueue := rest,
                   futures := setFuture it.fid (opOutcome it) s.futures }
          [Event.exec it.fid] := by
        simp [workerIter, hr, hq]
      have hrec := ih { s with taskQueue := rest,
                               futures := setFuture it.fid (opOutcome it) s.futures } hr rfl
      simp [workerRun, hiter, hrec.1, hrec.2.1, hrec.2.2.1, hrec.2.2.2]

theorem workerRun_idle :
    ∀ (n : Nat) (s : ServiceState),
      s.running = true → s.taskQueue = [] → s.connected = true →
      workerRun (Except.ok ()) n s =
        ⟨{ s with pumpCount := s.pumpCount + n },
         List.replicate n (Event.pump pumpDurationMs), none⟩ := by
  intro n
  induction n with
  | zero => intro s hr hq hc; simp [workerRun]
  | succ n ih =>
      intro s hr hq hc
      have hiter : workerIter s (Except.ok ()) =
          IterResult.next { s with pumpCount := s.pumpCount + 1 }
            [Event.pump pumpDurationMs] := by
        simp [workerIter, hr, hq, hc]
      have hrec := ih { s with pumpCount := s.pumpCount + 1 } hr hq hc
      simp [workerRun, hiter, hrec, List.replicate_succ]
      omega

theorem executeAll_service :
    ∀ (items : List WorkItem) (sys : SysState),
      (executeAll sys items).service.taskQueue = sys.service.taskQueue ++ items
      ∧ (executeAll sys items).service.running = sys.service.running := by
  intro items
  induction items with
  | nil => intro sys; simp [executeAll]
  | cons it rest ih =>
      intro sys
      have h := ih (execute sys it).1
      simp [executeAll] at h ⊢
      rw [h.1, h.2]
      simp [execute]

/-- C1: if a dequeued item's operation raises an exception, the worker
catches it and rejects the item's Future with that exception via
set_exception; the worker loop does not terminate, and a subsequently
submitted healthy operation is still dequeued and executed, its Future
fulfilled with its value. -/
theorem c1_op_exception_isolated (pump : Except String Unit)
    (bad good : WorkItem) (rest : List WorkItem) (e : String) (v : Nat)
    (s : ServiceState)
    (hr : s.running = true) (hq : s.taskQueue = bad :: good :: rest)
    (hbad : bad.op = Except.error e) (hgood : good.op = Except.ok v)
    (hne : bad.fid ≠ good.fid)
    (hb : (getFuture s.futures bad.fid).isSome = true)
    (hg : (getFuture s.futures good.fid).isSome = true) :
    getFuture (workerRun pump 2 s).state.futures bad.fid = some (FutureState.rejected e)
    ∧ getFuture (workerRun pump 2 s).state.futures good.fid = some (FutureState.fulfilled v)
    ∧ (workerRun pump 2 s).uncaught = none
    ∧ (workerRun pump 2 s).trace = [Event.exec bad.fid, Event.exec good.fid]
    ∧ (workerRun pump 2 s).state.running = true := by
  have hs1 : workerRun pump 2 s =
      ⟨{ s with taskQueue := rest,
                futures := setFuture good.fid (opOutcome good)
                  (setFuture bad.fid (opOutcome bad) s.futures) },
        [Event.exec bad.fid, Event.exec good.fid], none⟩ := by
    simp [workerRun, workerIter, hr, hq]
  rw [hs1]
  refine ⟨?_, ?_, rfl, rfl, hr⟩
  · rw [getFuture_setFuture_other bad.fid good.fid (opOutcome good) hne,
        getFuture_setFuture_self bad.fid (opOutcome bad) s.futures hb]
    simp [opOutcome, hbad]
  · have hg2 : (getFuture (setFuture bad.fid (opOutcome bad) s.futures) good.fid).isSome
        = true := by
      rw [getFuture_setFuture_other good.fid bad.fid (opOutcome bad) (Ne.symm hne)]
      exact hg
    rw [getFuture_setFuture_self good.fid (opOutcome good)
          (setFuture bad.fid (opOutcome bad) s.futures) hg2]
    simp [opOutcome, hgood]

/-- Failing item used by the crash-isolation witness. -/
def c1Bad : WorkItem := ⟨1, Except.error "boom"⟩

/-- Healthy item submitted after the failing one. -/
def c1Good : WorkItem := ⟨2, Except.ok 5⟩

/-- Service state with the failing item queued ahead of the healthy one. -/
def c1State : ServiceState :=
  { taskQueue := [c1Bad, c1Good],
    futures := [(1, FutureState.pending), (2, FutureState.pending)],
    connected := true, running := true, threadCount := 1,
    venueUp := true, pumpCount := 0 }

/-- C1 witness: concrete run of the crash-isolation theorem. -/
theorem c1_witness :
    getFuture (workerRun (Except.ok ()) 2 c1State).state.futures 1
        = some (FutureState.rejected "boom")
    ∧ getFuture (workerRun (Except.ok ()) 2 c1State).state.futures 2
        = some (FutureState.fulfilled 5)
    ∧ (workerRun (Except.ok ()) 2 c1State).uncaught = none
    ∧ (workerRun (Except.ok ()) 2 c1State).trace = [Event.exec 1, Event.exec 2]
    ∧ (workerRun (Except.ok ()) 2 c1State).state.running = true :=
  c1_op_exception_isolated (Except.ok ()) c1Bad c1Good [] "boom" 5 c1State
    rfl rfl rfl rfl (by decide) (by decide) (by decide)

/-- C2: items submitted through execute are executed by the single worker
in FIFO submission order — the execution trace is exactly the submission
list in order, every item delivered exactly once, the queue drains
completely and the loop never crashes — and a single loop iteration
executes at most one item, so no two operations run concurrently. -/
theorem c2_fifo_exactly_once (items : List WorkItem) (pump : Except String Unit) :
    (workerRun pump items.length (executeAll freshSys items).service).trace
        = items.map (fun it => Event.exec it.fid)
    ∧ (workerRun pump items.length (executeAll freshSys items).service).state.taskQueue = []
    ∧ (workerRun pump items.length (executeAll freshSys items).service).uncaught = none
    ∧ ∀ (s : ServiceState) (p : Except String Unit),
        ((workerIter s p).events.countP Event.isExec) ≤ 1 := by
  have hq : (executeAll freshSys items).service.taskQueue = items := by
    have h := (executeAll_service items freshSys).1
    simpa [freshSys, freshService] using h
  have hr : (executeAll freshSys items).service.running = true := by
    have h := (executeAll_service items freshSys).2
    simpa [freshSys, freshService] using h
  have hd := workerRun_drain pump items (executeAll freshSys items).service hr hq
  refine ⟨hd.1, hd.2.1, hd.2.2.1, ?_⟩
  intro s p
  cases hrun : s.running
  · simp [workerIter, hrun, IterResult.events]
  · cases hq2 : s.taskQueue with
    | nil =>
        cases hc : s.connected
        · simp [workerIter, hrun, hq2, hc, IterResult.events]
        · cases p with
          | ok u => simp [workerIter, hrun, hq2, hc, IterResult.events, Event.isExec]
          | error e2 => simp [workerIter, hrun, hq2, hc, IterResult.events, Event.isExec]
    | cons it2 rest2 =>
        simp [workerIter, hrun, hq2, IterResult.events, Event.isExec]

/-- C3: when the pop finds the channel empty and the connection is in the
connected state, the worker invokes ib.sleep for the fixed small
duration; over any n consecutive empty-queue iterations the pump runs
exactly once per iteration (so at least once per pop-timeout interval). -/
theorem c3_pump_on_empty_connected (s : ServiceState)
    (hr : s.running = true) (hq : s.taskQueue = []) (hc : s.connected = true) :
    workerIter s (Except.ok ()) =
      IterResult.next { s with pumpCount := s.pumpCount + 1 }
        [Event.pump pumpDurationMs]
    ∧ ∀ n : Nat,
        (workerRun (Except.ok ()) n s).state.pumpCount = s.pumpCount + n
        ∧ (workerRun (Except.ok ()) n s).trace
            = List.replicate n (Event.pump pumpDurationMs) := by
  constructor
  · simp [workerIter, hr, hq, hc]
  · intro n
    rw [workerRun_idle n s hr hq hc]
    exact ⟨rfl, rfl⟩

/-- C3 witness: the pump fires on a concrete idle connected service. -/
theorem c3_witness :
    (workerIter freshService (Except.ok ()) =
      IterResult.next { freshService with pumpCount := freshService.pumpCount + 1 }
        [Event.pump pumpDurationMs])
    ∧ ∀ n : Nat,
        (workerRun (Except.ok ()) n freshService).state.pumpCount
            = freshService.pumpCount + n
        ∧ (workerRun (Except.ok ()) n freshService).trace
            = List.replicate n (Event.pump pumpDurationMs) :=
  c3_pump_on_empty_connected freshService rfl rfl rfl

/-- Environment in which the connect attempt only finishes after the
31st second, one past the wait timeout. -/
def timeoutEnv : ConnectEnv := { result := Except.ok (), delaySec := 31 }

/-- C4 counterexample: when the readiness signal misses the 30-second
window, start still returns None to its caller — the Bool result of
connect_done.wait is discarded, so no Timeout failure is returned,
contrary to the claim. -/
theorem c4_counterexample_no_timeout_failure :
    startTimeoutSec < timeoutEnv.delaySec
    ∧ (start initialService timeoutEnv).2.value = none
    ∧ (start initialService timeoutEnv).2.value ≠ some StartError.timeout :=
  ⟨by decide, rfl, by decide⟩

/-- C4 amended: start blocks its caller for exactly the 30-unit default
when the readiness signal is late, then returns None (reporting no
Timeout failure); the worker thread it spawned is not killed and keeps
running, and a connect attempt finishing later still flips the service
to connected. -/
theorem c4_amended_timeout_keeps_worker (s : ServiceState) (env : ConnectEnv)
    (h : startTimeoutSec < env.delaySec) :
    (start s env).2.callerBlockedSec = startTimeoutSec
    ∧ (start s env).2.value = none
    ∧ (start s env).1.threadCount = s.threadCount + 1
    ∧ (start s env).1.running = true
    ∧ (env.result = Except.ok () → (lateConnect (start s env).1 env).connected = true) := by
  refine ⟨?_, rfl, rfl, rfl, ?_⟩
  · simp [start, Nat.min_eq_right (Nat.le_of_lt h)]
  · intro hok
    simp [lateConnect, connectPhase, ConnectPhase.applyConnected, hok]

/-- Environment whose connect attempt finishes at the 40th second. -/
def lateEnv : ConnectEnv := { result := Except.ok (), delaySec := 40 }

/-- C4 witness: the amended timeout behaviour at a concrete late
environment. -/
theorem c4_witness :
    startTimeoutSec < lateEnv.delaySec
    ∧ ((start initialService lateEnv).2.callerBlockedSec = startTimeoutSec
      ∧ (start initialService lateEnv).2.value = none
      ∧ (start initialService lateEnv).1.threadCount = initialService.threadCount + 1
      ∧ (start initialService lateEnv).1.running = true
      ∧ (lateEnv.result = Except.ok () →
          (lateConnect (start initialService lateEnv).1 lateEnv).connected = true)) :=
  ⟨by decide, c4_amended_timeout_keeps_worker initialService lateEnv (by decide)⟩

/-- Environment in which the connect handshake raises immediately. -/
def failEnv : ConnectEnv := { result := Except.error "boom", delaySec := 0 }

/-- C5 counterexample: a connect exception with reason boom does not
surface to the caller of start as a Failed(reason) report — start
returns None; the reason lives only in the local connect_error list
that start never reads. -/
theorem c5_counterexample_reason_not_surfaced :
    failEnv.result = Except.error "boom"
    ∧ (start initialService failEnv).2.value = none
    ∧ (start initialService failEnv).2.value ≠ some (StartError.failed "boom") :=
  ⟨rfl, rfl, by decide⟩

/-- C5 amended: an exception in the connect handshake is captured in the
local connect_error list (never escaping the worker thread) and the
readiness event is signalled exactly once; but no Failed(reason) report
reaches the caller of start — start returns None, and the except branch
writes nothing to _connected, so the caller observes exactly the
_connected value the service already had. -/
theorem c5_amended_connect_exception_captured (s : ServiceState) (env : ConnectEnv)
    (e : String)
    (hres : env.result = Except.error e) :
    (connectPhase env.result).capturedErrors = [e]
    ∧ (connectPhase env.result).signalCount = 1
    ∧ (connectPhase env.result).escapedException = none
    ∧ (start s env).2.value = none
    ∧ (start s env).1.connected = s.connected := by
  refine ⟨?_, ?_, ?_, rfl, ?_⟩
  · simp [connectPhase, hres]
  · simp [connectPhase, hres]
  · simp [connectPhase, hres]
  · simp [start, connectPhase, ConnectPhase.applyConnected, hres]

/-- C5 witness: a concrete failing handshake on a service that was not
yet connected — the caller sees it still not connected and no failure
report. -/
theorem c5_witness :
    failEnv.result = Except.error "boom"
    ∧ ((connectPhase failEnv.result).capturedErrors = ["boom"]
      ∧ (connectPhase failEnv.result).signalCount = 1
      ∧ (connectPhase failEnv.result).escapedException = none
      ∧ (start initialService failEnv).2.value = none
      ∧ (start initialService failEnv).1.connected = initialService.connected) :=
  ⟨rfl, c5_amended_connect_exception_captured initialService failEnv "boom" rfl⟩

/-- C6 counterexample: a pump exception is not swallowed — on an idle
connected service an ib.sleep failure ends the worker loop with the
exception escaping, instead of continuing to the next iteration. -/
theorem c6_counterexample_pump_exception_kills_loop :
    workerIter freshService (Except.error "pumpboom") =
      IterResult.crashed { freshService with pumpCount := freshService.pumpCount + 1 }
        "pumpboom" [Event.pump pumpDurationMs] := by
  decide

/-- C6 amended: an exception raised by ib.sleep in the empty-queue branch
sits in the except handler, is caught by nothing, and terminates the
worker loop with that exception as the thread's uncaught fault; no state
transition toward Failed exists in the code. -/
theorem c6_amended_pump_exception_uncaught (s : ServiceState) (e : String)
    (hr : s.running = true) (hq : s.taskQueue = []) (hc : s.connected = true) :
    workerIter s (Except.error e) =
      IterResult.crashed { s with pumpCount := s.pumpCount + 1 } e
        [Event.pump pumpDurationMs]
    ∧ (workerRun (Except.error e) 1 s).uncaught = some e := by
  have h : workerIter s (Except.error e) =
      IterResult.crashed { s with pumpCount := s.pumpCount + 1 } e
        [Event.pump pumpDurationMs] := by
    simp [workerIter, hr, hq, hc]
  exact ⟨h, by simp [workerRun, h]⟩

/-- C6 witness: a concrete pump failure crashes the loop. -/
theorem c6_witness :
    freshService.running = true
    ∧ freshService.taskQueue = []
    ∧ freshService.connected = true
    ∧ (workerIter freshService (Except.error "pumperr") =
        IterResult.crashed { freshService with pumpCount := freshService.pumpCount + 1 }
          "pumperr" [Event.pump pumpDurationMs]
      ∧ (workerRun (Except.error "pumperr") 1 freshService).uncaught = some "pumperr") :=
  ⟨rfl, rfl, rfl, c6_amended_pump_exception_uncaught freshService "pumperr" rfl rfl rfl⟩

/-- Service whose venue link is down while an item sits in the queue. -/
def downService : ServiceState :=
  { taskQueue := [⟨1, Except.ok 7⟩], futures := [(1, FutureState.pending)],
    connected := true, running := true, threadCount := 1,
    venueUp := false, pumpCount := 0 }

/-- C7 counterexample: with the venue connection down, the queued item is
still executed against the dead connection — its Future is fulfilled with
the operation's outcome, not rejected with a Disconnected error. -/
theorem c7_counterexample_no_disconnected_fail_fast :
    downService.venueUp = false
    ∧ (workerIter downService (Except.ok ())).events = [Event.exec 1]
    ∧ getFuture (workerIter downService (Except.ok ())).state.futures 1
        = some (FutureState.fulfilled 7)
    ∧ getFuture (workerIter downService (Except.ok ())).state.futures 1
        ≠ some (FutureState.rejected disconnectedError) := by
  refine ⟨rfl, rfl, by decide, by decide⟩

/-- C7 amended: the worker loop never consults the venue connection
state — with the venue down it keeps running, dequeues the next item and
executes it normally, settling the Future with the operation's own
outcome instead of failing fast with a Disconnected error. -/
theorem c7_amended_worker_executes_despite_venue_down (s : ServiceState)
    (it : WorkItem) (rest : List WorkItem) (pump : Except String Unit)
    (hr : s.running = true) (hq : s.taskQueue = it :: rest)
    (_hdown : s.venueUp = false)
    (hf : (getFuture s.futures it.fid).isSome = true) :
    workerIter s pump = IterResult.next
      { s with taskQueue := rest,
               futures := setFuture it.fid (opOutcome it) s.futures }
      [Event.exec it.fid]
    ∧ getFuture (setFuture it.fid (opOutcome it) s.futures) it.fid
        = some (opOutcome it) :=
  ⟨by simp [workerIter, hr, hq],
   getFuture_setFuture_self it.fid (opOutcome it) s.futures hf⟩

/-- Item queued while the venue link is down, for the C7 witness. -/
def c7Item : WorkItem := ⟨2, Except.ok 9⟩

/-- Service with the venue link down and c7Item queued. -/
def downService2 : ServiceState :=
  { taskQueue := [c7Item], futures := [(2, FutureState.pending)],
    connected := true, running := true, threadCount := 1,
    venueUp := false, pumpCount := 0 }

/-- C7 witness: a concrete item executes despite the venue being down. -/
theorem c7_witness :
    workerIter downService2 (Except.ok ()) = IterResult.next
      { downService2 with taskQueue := [],
                          futures := setFuture c7Item.fid (opOutcome c7Item) downService2.futures }
      [Event.exec c7Item.fid]
    ∧ getFuture (setFuture c7Item.fid (opOutcome c7Item) downService2.futures) c7Item.fid
        = some (opOutcome c7Item) :=
  c7_amended_worker_executes_despite_venue_down downService2 c7Item [] (Except.ok ())
    rfl rfl rfl (by decide)

/-- Environment whose connect attempt succeeds immediately. -/
def okEnv : ConnectEnv := { result := Except.ok (), delaySec := 0 }

/-- C8 counterexample: a second call to start while the first worker is
already running spawns a second worker thread — start unconditionally
constructs and starts a new thread, so two workers own the connection. -/
theorem c8_counterexample_second_start_spawns_second_worker :
    (start initialService okEnv).1.threadCount = 1
    ∧ (start initialService okEnv).1.running = true
    ∧ (start (start initialService okEnv).1 okEnv).1.threadCount = 2 :=
  ⟨rfl, rfl, rfl⟩

/-- C8 amended: start is not idempotent — every call, regardless of the
current state, spawns exactly one additional worker thread. -/
theorem c8_amended_every_start_spawns_worker (s : ServiceState) (env : ConnectEnv) :
    (start s env).1.threadCount = s.threadCount + 1 := rfl

/-- C9: a caller timing out of its await leaves the worker untouched —
the service state (queue, futures, flags) is unchanged, so every worker
run from then on is identical; the abandoned item is still dequeued and
executed and its Future settled with the operation's outcome even though
no caller reads it, and the items behind it remain queued for normal
processing. -/
theorem c9_caller_timeout_frame (sys : SysState) (fid : FutureId)
    (it : WorkItem) (rest : List WorkItem) (pump : Except String Unit)
    (hr : sys.service.running = true)
    (hq : sys.service.taskQueue = it :: rest)
    (hf : (getFuture sys.service.futures it.fid).isSome = true) :
    (callerTimeout sys fid).service = sys.service
    ∧ (∀ n : Nat,
        workerRun pump n (callerTimeout sys fid).service
          = workerRun pump n sys.service)
    ∧ getFuture (workerIter (callerTimeout sys fid).service pump).state.futures it.fid
        = some (opOutcome it)
    ∧ (workerIter (callerTimeout sys fid).service pump).state.taskQueue = rest := by
  have hiter : workerIter sys.service pump = IterResult.next
      { sys.service with taskQueue := rest,
                         futures := setFuture it.fid (opOutcome it) sys.service.futures }
      [Event.exec it.fid] := by
    simp [workerIter, hr, hq]
  refine ⟨rfl, fun n => rfl, ?_, ?_⟩
  · show getFuture (workerIter sys.service pump).state.futures it.fid = some (opOutcome it)
    rw [hiter]
    exact getFuture_setFuture_self it.fid (opOutcome it) sys.service.futures hf
  · show (workerIter sys.service pump).state.taskQueue = rest
    rw [hiter]
    rfl

/-- Item whose caller abandons its await in the C9 witness. -/
def c9Item : WorkItem := ⟨3, Except.ok 4⟩

/-- System with c9Item queued and its caller blocked awaiting it. -/
def c9Sys : SysState :=
  { service :=
      { taskQueue := [c9Item], futures := [(3, FutureState.pending)],
        connected := true, running := true, threadCount := 1,
        venueUp := true, pumpCount := 0 },
    waiters := [3] }

/-- C9 witness: a concrete abandoned await changes nothing for the
worker and the item is still settled. -/
theorem c9_witness :
    (callerTimeout c9Sys 3).service = c9Sys.service
    ∧ (∀ n : Nat,
        workerRun (Except.ok ()) n (callerTimeout c9Sys 3).service
          = workerRun (Except.ok ()) n c9Sys.service)
    ∧ getFuture (workerIter (callerTimeout c9Sys 3).service (Except.ok ())).state.futures
        c9Item.fid = some (opOutcome c9Item)
    ∧ (workerIter (callerTimeout c9Sys 3).service (Except.ok ())).state.taskQueue = [] :=
  c9_caller_timeout_frame c9Sys 3 c9Item [] (Except.ok ()) rfl rfl (by decide)

/-- C10: every execute call awaits its Future with the one fixed
30-second deadline — the deadline is the same whatever state and
operation are passed, so the interface admits no caller-chosen deadline;
a Future still pending at the deadline makes the await raise a timeout;
and the caller's timeout neither removes the queued item nor cancels or
settles its Future. -/
theorem c10_fixed_await_deadline :
    (∀ (sys : SysState) (it : WorkItem), (execute sys it).2 = resultTimeoutSec)
    ∧ resultTimeoutSec = 30
    ∧ (∀ (sys1 : SysState) (it1 : WorkItem) (sys2 : SysState) (it2 : WorkItem),
        (execute sys1 it1).2 = (execute sys2 it2).2)
    ∧ awaitFuture FutureState.pending = AwaitOutcome.timedOut
    ∧ (∀ (sys : SysState) (fid : FutureId),
        (callerTimeout sys fid).service.taskQueue = sys.service.taskQueue
        ∧ (callerTimeout sys fid).service.futures = sys.service.futures) :=
  ⟨fun _ _ => rfl, rfl, fun _ _ _ _ => rfl, rfl, fun _ _ => ⟨rfl, rfl⟩⟩

end Bridge
